import Mathlib

set_option maxRecDepth 4000

/-!
Shallow embedding of the SplatFlow toolchain-resolution and pipeline-orchestration
core (src/splatflow/backend): process execution, toolchain resolver, command
builders and the pipeline orchestrator.  Paths are modelled as plain strings,
filesystem and network effects as explicit oracle functions, and Python ints as
`Int` (floor division `//` is `Int.fdiv`, `%` with a positive divisor is
`Int.fmod`).
-/

namespace SplatFlow

/-! ### Basic vocabulary (schema.py literals and shared types) -/

inductive SelectionMethod
  | bestN
  | batched
  | outlierRemoval
deriving DecidableEq, Repr

/-- String form used on the sharp-frames command line. -/
def SelectionMethod.str : SelectionMethod → String
  | .bestN => "best-n"
  | .batched => "batched"
  | .outlierRemoval => "outlier-removal"

inductive InputType
  | images
  | video
deriving DecidableEq, Repr

inductive ColmapMatcher
  | exhaustive
  | sequential
deriving DecidableEq, Repr

/-- Environment overlay carried by a resolved tool (toolchain.py `ToolExec.env`):
either empty, or a PATH overlay of injected bin directories (`_with_path`). -/
inductive EnvOverlay
  | empty
  | pathOverlay (dirs : List String)
deriving DecidableEq, Repr

/-- Resolved tool descriptor (toolchain.py `ToolExec`).  The source field
`prefix` (the invocation token list) is named `invoke` here. -/
structure ToolExec where
  exe : String
  invoke : List String
  env : EnvOverlay
deriving DecidableEq, Repr

/-- The error taxonomy of errors.py plus unclassified (network/filesystem)
failures that propagate unwrapped. -/
inductive PErr
  | validationErr (msg : String)
  | toolNotFound (msg : String)
  | commandFailed (command : List String) (returncode : Int) (tail : String)
  | unclassified (msg : String)
deriving DecidableEq, Repr

/-! ### Job configuration (schema.py) -/

structure FrameSamplingConfig where
  enabled : Bool := true
  selection_method : SelectionMethod := .bestN
  fps : Int := 10
  format : String := "jpg"
  width : Int := 0
  force_overwrite : Bool := false
  num_frames : Int := 300
  min_buffer : Int := 3
  batch_size : Int := 5
  batch_buffer : Int := 2
  outlier_window_size : Int := 15
  outlier_sensitivity : Int := 50
deriving DecidableEq, Repr

structure ColmapConfig where
  matcher : ColmapMatcher := .exhaustive
  use_gpu : Bool := true
  camera_model : String := "PINHOLE"
  single_camera : Bool := true
  max_image_size : Int := 3200
  sift_max_num_features : Int := 8192
  num_threads : Int := -1
  sequential_overlap : Int := 10
deriving DecidableEq, Repr

structure LichtfeldConfig where
  iterations : Int := 30000
  resize_factor : String := "auto"
  strategy : String := "adc"
  max_cap : Int := 1000000
  headless : Bool := true
  gut : Bool := false
  ppisp_controller : Bool := false
  mip_filter : Bool := false
  eval : Bool := false
  save_eval_images : Bool := false
  test_every : Int := 8
deriving DecidableEq, Repr

structure InputConfig where
  type : InputType
  path : String
deriving DecidableEq, Repr

structure OutputConfig where
  output_dir : String
  keep_intermediates : Bool := true
deriving DecidableEq, Repr

structure PipelineConfig where
  input : InputConfig
  output : OutputConfig
  frame_sampling : FrameSamplingConfig := {}
  colmap : ColmapConfig := {}
  lichtfeld : LichtfeldConfig := {}
deriving DecidableEq, Repr

/-- Filesystem oracle used by the schema validators (the `Path.exists`,
`Path.is_file`, `Path.is_dir` queries of schema.py). -/
structure FileSystem where
  pathExists : String → Bool
  isFile : String → Bool
  isDir : String → Bool

def InputConfig.validate (c : InputConfig) (fs : FileSystem) : Except PErr Unit :=
  if c.type = InputType.images then
    if ¬ (fs.pathExists c.path ∧ fs.isDir c.path) then
      .error (.validationErr ("Input images path must be a directory: " ++ c.path))
    else .ok ()
  else
    if ¬ fs.pathExists c.path then
      .error (.validationErr ("Input video path does not exist: " ++ c.path))
    else if ¬ (fs.isFile c.path ∨ fs.isDir c.path) then
      .error (.validationErr ("Input video path must be a file or directory: " ++ c.path))
    else .ok ()

def FrameSamplingConfig.validate (c : FrameSamplingConfig) : Except PErr Unit :=
  if ¬ c.enabled then .ok ()
  else if c.fps ≤ 0 then .error (.validationErr "Frame sampling FPS must be > 0")
  else if c.width < 0 then .error (.validationErr "Frame sampling width must be >= 0")
  else
    match c.selection_method with
    | .bestN =>
      if c.num_frames ≤ 0 then .error (.validationErr "num_frames must be > 0 for best-n")
      else if c.min_buffer < 0 then .error (.validationErr "min_buffer must be >= 0 for best-n")
      else .ok ()
    | .batched =>
      if c.batch_size ≤ 0 then .error (.validationErr "batch_size must be > 0 for batched")
      else if c.batch_buffer < 0 then .error (.validationErr "batch_buffer must be >= 0 for batched")
      else .ok ()
    | .outlierRemoval =>
      if c.outlier_window_size ≤ 0 then
        .error (.validationErr "outlier_window_size must be > 0 for outlier-removal")
      else if ¬ (0 ≤ c.outlier_sensitivity ∧ c.outlier_sensitivity ≤ 100) then
        .error (.validationErr "outlier_sensitivity must be in [0, 100]")
      else .ok ()

def ColmapConfig.validate (c : ColmapConfig) : Except PErr Unit :=
  if c.max_image_size ≤ 0 then .error (.validationErr "COLMAP max_image_size must be > 0")
  else if c.sift_max_num_features ≤ 0 then
    .error (.validationErr "COLMAP sift_max_num_features must be > 0")
  else if c.matcher = ColmapMatcher.sequential ∧ c.sequential_overlap ≤ 0 then
    .error (.validationErr "COLMAP sequential_overlap must be > 0")
  else .ok ()

def LichtfeldConfig.validate (c : LichtfeldConfig) : Except PErr Unit :=
  if c.iterations ≤ 0 then .error (.validationErr "LichtFeld iterations must be > 0")
  else if c.max_cap ≤ 0 then .error (.validationErr "LichtFeld max_cap must be > 0")
  else if c.test_every ≤ 0 then .error (.validationErr "LichtFeld test_every must be > 0")
  else .ok ()

def OutputConfig.validate (c : OutputConfig) (fs : FileSystem) : Except PErr Unit :=
  if fs.pathExists c.output_dir ∧ ¬ fs.isDir c.output_dir then
    .error (.validationErr ("Output directory path exists and is not a directory: " ++ c.output_dir))
  else .ok ()

def PipelineConfig.validate (c : PipelineConfig) (fs : FileSystem) : Except PErr Unit :=
  match c.input.validate fs with
  | .error e => .error e
  | .ok _ =>
  match c.output.validate fs with
  | .error e => .error e
  | .ok _ =>
  match c.frame_sampling.validate with
  | .error e => .error e
  | .ok _ =>
  match c.colmap.validate with
  | .error e => .error e
  | .ok _ => c.lichtfeld.validate

/-! ### Process execution service (process.py) -/

/-- Default of `RunOptions.tail_lines` in process.py. -/
def defaultTailLines : Nat := 200

/-- Outcome of one subprocess: the combined stdout/stderr stream split into
lines (text mode normalises newlines), and the exit code. -/
structure SubprocessResult where
  outputLines : List String
  returncode : Int
deriving DecidableEq, Repr

/-- One step of the bounded ring buffer: `collections.deque(maxlen=m).append x`.
When the buffer is full the oldest line is discarded. -/
def dequeAppend (m : Nat) (buf : List String) (x : String) : List String :=
  (buf ++ [x]).drop (buf.length + 1 - m)

/-- The retained tail after streaming all lines through the deque. -/
def runTail (m : Nat) (lines : List String) : List String :=
  List.foldl (dequeAppend m) [] lines

/-- Source `CommandRunner.run`: streams lines (to `on_line`, not modelled further),
retains the bounded tail, and on nonzero exit raises `CommandFailedError`
carrying the command, exit code and the joined tail. -/
def CommandRunner.run (command : List String) (tail_lines : Nat)
    (proc : SubprocessResult) : Except PErr Unit :=
  let tail := runTail tail_lines proc.outputLines
  if proc.returncode ≠ 0 then
    .error (.commandFailed command proc.returncode (String.intercalate "\n" tail))
  else .ok ()

theorem dequeAppend_length (m : Nat) (buf : List String) (x : String) :
    (dequeAppend m buf x).length = min (buf.length + 1) m := by
  simp only [dequeAppend, List.length_drop, List.length_append, List.length_singleton]
  omega

theorem foldl_dequeAppend (m : Nat) :
    ∀ (xs buf : List String), buf.length ≤ m →
      List.foldl (dequeAppend m) buf xs = (buf ++ xs).drop (buf.length + xs.length - m)
  | [], buf, h => by
    simp [Nat.sub_eq_zero_of_le h]
  | x :: xs, buf, h => by
    have hlen : (dequeAppend m buf x).length ≤ m := by
      rw [dequeAppend_length]; omega
    rw [List.foldl_cons, foldl_dequeAppend m xs _ hlen]
    have hk : buf.length + 1 - m ≤ (buf ++ [x]).length := by
      simp only [List.length_append, List.length_singleton]; omega
    simp only [dequeAppend, List.length_drop, List.length_append, List.length_singleton]
    rw [← List.drop_append_of_le_length hk, List.drop_drop]
    have harith : buf.length + 1 - m
        + (buf.length + 1 - (buf.length + 1 - m) + xs.length - m)
        = buf.length + (x :: xs).length - m := by
      simp only [List.length_cons]; omega
    rw [harith, List.append_assoc, List.singleton_append]

/-- The retained tail is exactly the suffix of the most recent `m` lines. -/
theorem runTail_eq_drop (m : Nat) (lines : List String) :
    runTail m lines = lines.drop (lines.length - m) := by
  rw [runTail, foldl_dequeAppend m lines [] (Nat.zero_le m)]
  simp

theorem runTail_length (m : Nat) (lines : List String) :
    (runTail m lines).length = min m lines.length := by
  rw [runTail_eq_drop, List.length_drop]; omega

/-! ### Per-video frame budget (pipeline.py `SplatPipeline._ingest`, lines 134-138)

For video ingest the orchestrator replaces `num_frames` per video:
under "best-n" with more than one video, the base share is
`max(1, num_frames // n)` and the first `num_frames % n` videos get one
extra frame; otherwise the configured value is used unchanged. -/

def perVideoNumFrames (fs : FrameSamplingConfig) (n : Nat) (i : Nat) : Int :=
  if fs.selection_method = SelectionMethod.bestN ∧ 1 < n then
    max 1 (Int.fdiv fs.num_frames (n : Int)) +
      (if (i : Int) < Int.fmod fs.num_frames (n : Int) then 1 else 0)
  else fs.num_frames

/-! ### Capability probing (toolchain.py `_COLMAP_OPT_RE` and `colmap_options`) -/

/-- Python regex `\s` over a single line. -/
def pySpace (c : Char) : Bool :=
  c = ' ' || c = '\t' || c = '\n' || c = '\r' || c = '\x0b' || c = '\x0c'

/-- The character class `[A-Za-z0-9_.-]` of `_COLMAP_OPT_RE`. -/
def optNameChar (c : Char) : Bool :=
  c.isAlphanum || c = '_' || c = '.' || c = '-'

/-- A regex word character, for the trailing `\b`. -/
def wordChar (c : Char) : Bool :=
  c.isAlphanum || c = '_'

/-- Match one line against `^\s*--([A-Za-z0-9_.-]+)\b`: skip leading
whitespace, require `--`, take the longest run of flag characters, then
backtrack over trailing non-word characters (`.`/`-`) so the match ends at a
word boundary.  Returns the captured flag name. -/
def matchOptLine (line : String) : Option String :=
  match line.toList.dropWhile pySpace with
  | '-' :: '-' :: rest =>
    let run := rest.takeWhile optNameChar
    let name := (run.reverse.dropWhile (fun c => !wordChar c)).reverse
    if name.isEmpty then none else some (String.mk name)
  | _ => none

/-- Extract the set of long-flag names from a captured help text
(`colmap_options` lines 239-244; text mode has already normalised newlines). -/
def parseColmapOptions (out : String) : Finset String :=
  ((out.splitOn "\n").filterMap matchOptLine).toFinset

/-- The per-instance capability cache `_colmap_options_cache`. -/
abbrev OptionsCache := List (String × Finset String)

/-- Source `Toolchain.colmap_options`.  Here `execRes` is the outcome of the
`self.colmap_exec()` call (performed outside the `try`), `helpOf` the outcome
of `run_capture` on `<prefix> <subcommand> -h`.  Returns the flag set, the
updated cache, and the number of help invocations performed (0 on cache hit).
Only the `run_capture` step is guarded: any of its exceptions degrades to an
empty, cached set; a resolution failure propagates. -/
def colmap_options (execRes : Except PErr ToolExec)
    (helpOf : String → Except PErr String) (cache : OptionsCache)
    (cmd : String) : Except PErr (Finset String × OptionsCache × Nat) :=
  match cache.lookup cmd with
  | some opts => .ok (opts, cache, 0)
  | none =>
    match execRes with
    | .error e => .error e
    | .ok _ =>
      let opts : Finset String :=
        match helpOf cmd with
        | .error _ => ∅
        | .ok out => parseColmapOptions out
      .ok (opts, (cmd, opts) :: cache, 1)

/-! ### COLMAP command builders (tools/colmap.py) -/

structure ColmapProject where
  images_dir : String
  database_path : String
  sparse_dir : String
  undistorted_dir : String
deriving DecidableEq, Repr

def ColmapProject.sparse_model_dir (p : ColmapProject) : String :=
  p.sparse_dir ++ "/0"

/-- First candidate flag name present in the probed capability set. -/
def _pick_option (options : Finset String) (candidates : List String) : Option String :=
  candidates.find? (fun c => decide (c ∈ options))

def feature_extractor_cmd (tool : ToolExec) (opts : Finset String)
    (proj : ColmapProject) (cfg : ColmapConfig) : List String × EnvOverlay :=
  let cmd := tool.invoke ++
    ["feature_extractor",
     "--database_path", proj.database_path,
     "--image_path", proj.images_dir,
     "--ImageReader.camera_model", cfg.camera_model,
     "--ImageReader.single_camera", if cfg.single_camera then "1" else "0"]
  let cmd :=
    match _pick_option opts ["FeatureExtraction.use_gpu", "SiftExtraction.use_gpu"] with
    | some g => cmd ++ ["--" ++ g, if cfg.use_gpu then "1" else "0"]
    | none => cmd
  let cmd :=
    match _pick_option opts ["FeatureExtraction.max_image_size", "SiftExtraction.max_image_size"] with
    | some o => cmd ++ ["--" ++ o, toString cfg.max_image_size]
    | none => cmd
  let cmd :=
    match _pick_option opts ["FeatureExtraction.num_threads", "SiftExtraction.num_threads"] with
    | some o => cmd ++ ["--" ++ o, toString cfg.num_threads]
    | none => cmd
  let cmd :=
    if "SiftExtraction.max_num_features" ∈ opts then
      cmd ++ ["--SiftExtraction.max_num_features", toString cfg.sift_max_num_features]
    else cmd
  (cmd, tool.env)

/-- Source `matcher_cmd`; `caps` is `toolchain.colmap_options` per subcommand. -/
def matcher_cmd (tool : ToolExec) (caps : String → Finset String)
    (proj : ColmapProject) (cfg : ColmapConfig) : List String × EnvOverlay :=
  if cfg.matcher = ColmapMatcher.sequential then
    let opts := caps "sequential_matcher"
    let gpu := _pick_option opts ["FeatureMatching.use_gpu", "SiftMatching.use_gpu"]
    let overlap := if "SequentialMatching.overlap" ∈ opts then
        some "SequentialMatching.overlap" else none
    let cmd := tool.invoke ++ ["sequential_matcher", "--database_path", proj.database_path]
    let cmd :=
      match gpu with
      | some g => cmd ++ ["--" ++ g, if cfg.use_gpu then "1" else "0"]
      | none => cmd
    let cmd :=
      match overlap with
      | some o => cmd ++ ["--" ++ o, toString cfg.sequential_overlap]
      | none => cmd
    (cmd, tool.env)
  else
    let opts := caps "exhaustive_matcher"
    let gpu := _pick_option opts ["FeatureMatching.use_gpu", "SiftMatching.use_gpu"]
    let cmd := tool.invoke ++ ["exhaustive_matcher", "--database_path", proj.database_path]
    let cmd :=
      match gpu with
      | some g => cmd ++ ["--" ++ g, if cfg.use_gpu then "1" else "0"]
      | none => cmd
    (cmd, tool.env)

def mapper_cmd (tool : ToolExec) (proj : ColmapProject) : List String × EnvOverlay :=
  (tool.invoke ++
    ["mapper",
     "--database_path", proj.database_path,
     "--image_path", proj.images_dir,
     "--output_path", proj.sparse_dir], tool.env)

def undistort_cmd (tool : ToolExec) (proj : ColmapProject) (cfg : ColmapConfig) :
    List String × EnvOverlay :=
  (tool.invoke ++
    ["image_undistorter",
     "--image_path", proj.images_dir,
     "--input_path", proj.sparse_model_dir,
     "--output_path", proj.undistorted_dir,
     "--output_type", "COLMAP",
     "--max_image_size", toString cfg.max_image_size], tool.env)

/-! ### Frame-sampler command builder (tools/sharp_frames.py) -/

structure SharpFramesArgs where
  input_path : String
  output_dir : String
  input_type : InputType
  config : FrameSamplingConfig
deriving DecidableEq, Repr

def SharpFramesArgs.to_command (a : SharpFramesArgs) (tool : ToolExec) :
    List String × EnvOverlay :=
  let cfg := a.config
  let cmd := tool.invoke ++ [a.input_path, a.output_dir]
  let cmd := cmd ++ ["--selection-method", cfg.selection_method.str]
  let cmd := if a.input_type = InputType.video then cmd ++ ["--fps", toString cfg.fps] else cmd
  let cmd := cmd ++ ["--format", cfg.format]
  -- `if cfg.width:` — Python truthiness of an int
  let cmd := if cfg.width ≠ 0 then cmd ++ ["--width", toString cfg.width] else cmd
  let cmd := if cfg.force_overwrite then cmd ++ ["--force-overwrite"] else cmd
  let cmd :=
    match cfg.selection_method with
    | .bestN => cmd ++
        ["--num-frames", toString cfg.num_frames, "--min-buffer", toString cfg.min_buffer]
    | .batched => cmd ++
        ["--batch-size", toString cfg.batch_size, "--batch-buffer", toString cfg.batch_buffer]
    | .outlierRemoval => cmd ++
        ["--outlier-window-size", toString cfg.outlier_window_size,
         "--outlier-sensitivity", toString cfg.outlier_sensitivity]
  (cmd, tool.env)

/-! ### Trainer command builder (tools/lichtfeld.py) -/

structure LichtfeldTrainArgs where
  data_path : String
  output_path : String
  config : LichtfeldConfig
deriving DecidableEq, Repr

def LichtfeldTrainArgs.to_command (a : LichtfeldTrainArgs) (tool : ToolExec) :
    List String × EnvOverlay :=
  let cfg := a.config
  let cmd := tool.invoke ++
    ["--data-path", a.data_path,
     "--output-path", a.output_path,
     "--iter", toString cfg.iterations,
     "--resize_factor", cfg.resize_factor,
     "--strategy", cfg.strategy,
     "--max-cap", toString cfg.max_cap,
     "--train", "--no-splash"]
  let cmd := if cfg.gut then cmd ++ ["--gut"] else cmd
  let cmd := if cfg.ppisp_controller then cmd ++ ["--ppisp-controller"] else cmd
  let cmd := if cfg.mip_filter then cmd ++ ["--enable-mip"] else cmd
  let cmd := if cfg.headless then cmd ++ ["--headless"] else cmd
  let cmd := if cfg.eval then cmd ++ ["--eval"] else cmd
  let cmd := if cfg.save_eval_images then cmd ++ ["--save-eval-images"] else cmd
  -- `if cfg.test_every:` — Python truthiness of an int
  let cmd := if cfg.test_every ≠ 0 then cmd ++ ["--test-every", toString cfg.test_every] else cmd
  (cmd, tool.env)

/-! ### Settings (settings.py), consumed by the resolver -/

structure ToolPaths where
  colmap : Option String := none
  lichtfeld : Option String := none
deriving DecidableEq, Repr

structure ColmapInstall where
  source : String := "official"
  version : String := "latest"
  build : String := "cuda"
deriving DecidableEq, Repr

structure Settings where
  tool_paths : ToolPaths := {}
  auto_install_tools : Bool := true
  colmap : ColmapInstall := {}
deriving DecidableEq, Repr

/-! ### Toolchain resolver (toolchain.py)

The on-disk install area is a `DiskState`; platform, filesystem, network and
subprocess outcomes are a `ResolveWorld` of oracles.  Each `ensure_*` function
returns its result, the new disk state, and the number of install actions it
performed (archive downloads plus package-manager runs), so idempotency is
observable. -/

structure DiskState where
  /-- tools/micromamba/micromamba[.exe] exists. -/
  micromambaPresent : Bool
  /-- tools/envs/colmap/.created exists (the managed-environment marker). -/
  envMarker : Bool
  /-- the expected executable inside the managed environment exists
  (never consulted by `ensure_env`). -/
  envExePresent : Bool
  /-- tools/colmap/version/build/.installed exists (official-install marker). -/
  officialMarker : Bool
  /-- COLMAP.bat is locatable under the official install directory. -/
  officialBatPresent : Bool
deriving DecidableEq, Repr

structure ResolveWorld where
  /-- Whether `os.name == "nt"`. -/
  isWindows : Bool
  /-- Whether `_platform_tag()` succeeds (recognised OS/arch). -/
  platformSupported : Bool
  /-- Result of `Path(p).exists()` for configured explicit tool paths. -/
  pathExists : String → Bool
  /-- Result of `CommandRunner.which`. -/
  which : String → Option String
  /-- Whether `download_file` succeeds. -/
  downloadOk : Bool
  /-- outcome of `_resolve_latest_colmap_release()` (network redirect). -/
  latestTag : Except PErr String
  /-- the downloaded official archive contains COLMAP.bat. -/
  extractYieldsBat : Bool
  /-- Whether `micromamba create` exits zero. -/
  createEnvOk : Bool
  /-- the GitHub release API call for LichtFeld succeeds. -/
  releaseApiOk : Bool
  /-- a platform-matching `.zip` asset is listed. -/
  lichtfeldAssetFound : Bool
  /-- executable located in the extracted LichtFeld tree, if any. -/
  lichtfeldExeFound : Option String

/-- Source `Toolchain.ensure_micromamba`: the executable itself plays the role of the
marker; no separate marker file is written. -/
def ensure_micromamba (s : Settings) (w : ResolveWorld) (d : DiskState) :
    Except PErr String × DiskState × Nat :=
  if d.micromambaPresent then (.ok "micromamba", d, 0)
  else if ¬ s.auto_install_tools then
    (.error (.toolNotFound
      "micromamba not found. Enable auto_install_tools or install micromamba and configure its path."),
     d, 0)
  else if ¬ w.platformSupported then
    (.error (.toolNotFound "Unsupported platform for auto-install"), d, 0)
  else if ¬ w.downloadOk then (.error (.unclassified "download failed"), d, 0)
  else (.ok "micromamba", { d with micromambaPresent := true }, 1)

/-- Source `Toolchain.ensure_env` for the "colmap" environment: the `.created` marker
short-circuits everything; it is written only after a successful
`micromamba create`.  The environment contents are never re-validated. -/
def ensure_env (s : Settings) (w : ResolveWorld) (d : DiskState) :
    Except PErr String × DiskState × Nat :=
  if d.envMarker then (.ok "envs/colmap", d, 0)
  else if ¬ s.auto_install_tools then
    (.error (.toolNotFound
      "Conda env colmap not found. Enable auto_install_tools or install required tools manually."),
     d, 0)
  else
    match ensure_micromamba s w d with
    | (.error e, d1, k) => (.error e, d1, k)
    | (.ok _, d1, k) =>
      if w.createEnvOk then (.ok "envs/colmap", { d1 with envMarker := true }, k + 1)
      else (.error (.commandFailed ["micromamba", "create"] 1 ""), d1, k + 1)

/-- Python `str.strip()` (whitespace at both ends), character-list based. -/
def strStrip (s : String) : String :=
  String.mk (((s.data.dropWhile pySpace).reverse.dropWhile pySpace).reverse)

/-- Python `str.lower()`, character-list based. -/
def strLower (s : String) : String :=
  String.mk (s.data.map Char.toLower)

/-- Source `Toolchain.ensure_colmap_official`.  Note the order in the source: the
"latest" release tag is resolved over the network before the marker check;
a marker whose install directory no longer contains COLMAP.bat is unlinked
and the download retried. -/
def ensure_colmap_official (s : Settings) (w : ResolveWorld) (d : DiskState) :
    Except PErr String × DiskState × Nat :=
  if ¬ w.isWindows then
    (.error (.toolNotFound
      ("Official COLMAP auto-download is currently supported on Windows only. "
        ++ "Please install COLMAP manually or switch to the conda source.")), d, 0)
  else if ¬ s.auto_install_tools then
    (.error (.toolNotFound
      "COLMAP not found. Enable auto_install_tools or configure the COLMAP path in settings."),
     d, 0)
  else
    let version0 := strStrip (if s.colmap.version = "" then "latest" else s.colmap.version)
    match (if strLower version0 = "latest" then w.latestTag else .ok version0) with
    | .error e => (.error e, d, 0)
    | .ok _version =>
      if d.officialMarker ∧ d.officialBatPresent then (.ok "COLMAP.bat", d, 0)
      else
        -- a stale marker is unlinked before reinstalling
        let d1 := { d with officialMarker := false }
        if ¬ w.downloadOk then (.error (.unclassified "download failed"), d1, 0)
        else
          let d2 := { d1 with officialBatPresent := w.extractYieldsBat }
          if ¬ w.extractYieldsBat then
            (.error (.toolNotFound
              "Downloaded COLMAP, but could not locate COLMAP.bat in the archive."), d2, 1)
          else (.ok "COLMAP.bat", { d2 with officialMarker := true }, 1)

/-- Windows wrapper-script detection: a .bat or .cmd suffix, lower-cased. -/
def hasWinScriptSuffix (p : String) : Bool :=
  p.toLower.endsWith ".bat" || p.toLower.endsWith ".cmd"

/-- Source `Toolchain._env_bin_dirs`. -/
def envBinDirs (isWindows : Bool) (envPrefixDir : String) : List String :=
  if isWindows then [envPrefixDir ++ "/Library/bin", envPrefixDir ++ "/Scripts"]
  else [envPrefixDir ++ "/bin"]

/-- Step 4 of `colmap_exec` (conda-forge fallback, inlined in the source):
create the managed environment, then invoke colmap through
`micromamba run -p <env> colmap` with the env bin dirs prepended to PATH. -/
def colmapCondaFallback (s : Settings) (w : ResolveWorld) (d : DiskState) (k0 : Nat) :
    Except PErr ToolExec × DiskState × Nat :=
  match ensure_env s w d with
  | (.error e, d1, k) => (.error e, d1, k0 + k)
  | (.ok envp, d1, k) =>
    match ensure_micromamba s w d1 with
    | (.error e, d2, k2) => (.error e, d2, k0 + k + k2)
    | (.ok mm, d2, k2) =>
      (.ok ⟨"colmap", [mm, "run", "-p", envp, "colmap"],
        .pathOverlay (envBinDirs w.isWindows envp)⟩, d2, k0 + k + k2)

/-- Source `Toolchain.colmap_exec`: explicit settings path (used verbatim, or fatal
if missing), then PATH, then the official Windows release (a
`ToolNotFoundError` from it is re-raised only when auto-install is off),
then the conda-forge fallback. -/
def colmap_exec (s : Settings) (w : ResolveWorld) (d : DiskState) :
    Except PErr ToolExec × DiskState × Nat :=
  match s.tool_paths.colmap with
  | some p =>
    if w.pathExists p then
      if w.isWindows ∧ hasWinScriptSuffix p then
        (.ok ⟨p, ["cmd.exe", "/c", p], .empty⟩, d, 0)
      else (.ok ⟨p, [p], .empty⟩, d, 0)
    else (.error (.toolNotFound ("Configured COLMAP path does not exist: " ++ p)), d, 0)
  | none =>
  match w.which "colmap" with
  | some f =>
    if w.isWindows ∧ hasWinScriptSuffix f then
      (.ok ⟨f, ["cmd.exe", "/c", f], .empty⟩, d, 0)
    else (.ok ⟨f, [f], .empty⟩, d, 0)
  | none =>
    if s.colmap.source = "official" then
      match ensure_colmap_official s w d with
      | (.ok bat, d1, k) =>
        (.ok ⟨bat, ["cmd.exe", "/d", "/s", "/c", bat], .empty⟩, d1, k)
      | (.error (.toolNotFound m), d1, k) =>
        if ¬ s.auto_install_tools then (.error (.toolNotFound m), d1, k)
        else colmapCondaFallback s w d1 k
      | (.error e, d1, k) => (.error e, d1, k)
    else colmapCondaFallback s w d 0

/-- Source `Toolchain.sharp_frames_exe`: PATH hit, else fall back to running the
current Python interpreter with `-m sharp_frames`.  Total: no settings, no
markers, no failure path. -/
def sharp_frames_exe (w : ResolveWorld) (sysExecutable : String) : ToolExec :=
  match w.which "sharp-frames" with
  | some found => ⟨found, [found], .empty⟩
  | none => ⟨sysExecutable, [sysExecutable, "-m", "sharp_frames"], .empty⟩

/-- Source `Toolchain._download_lichtfeld`: release-API query, asset filtering,
download, extraction (nested-archive step collapsed into the located
executable oracle). -/
def _download_lichtfeld (w : ResolveWorld) (d : DiskState) :
    Except PErr String × DiskState × Nat :=
  if ¬ w.platformSupported then
    (.error (.toolNotFound "Unsupported platform for auto-install"), d, 0)
  else if ¬ w.releaseApiOk then (.error (.unclassified "release API request failed"), d, 0)
  else if ¬ w.lichtfeldAssetFound then
    (.error (.toolNotFound
      ("Could not auto-download LichtFeld Studio for this platform. "
        ++ "Install it manually and set its path in settings.")), d, 0)
  else if ¬ w.downloadOk then (.error (.unclassified "download failed"), d, 0)
  else
    match w.lichtfeldExeFound with
    | some exe => (.ok exe, d, 1)
    | none =>
      (.error (.toolNotFound
        "Downloaded LichtFeld Studio, but could not locate the executable."), d, 1)

/-- Source `Toolchain.lichtfeld_exec`: explicit settings path (verbatim or fatal),
then PATH under two names, then best-effort auto-download. -/
def lichtfeld_exec (s : Settings) (w : ResolveWorld) (d : DiskState) :
    Except PErr ToolExec × DiskState × Nat :=
  match s.tool_paths.lichtfeld with
  | some p =>
    if w.pathExists p then (.ok ⟨p, [p], .empty⟩, d, 0)
    else (.error (.toolNotFound ("Configured LichtFeld path does not exist: " ++ p)), d, 0)
  | none =>
  match w.which "LichtFeld-Studio" with
  | some f => (.ok ⟨f, [f], .empty⟩, d, 0)
  | none =>
  match w.which "LichtFeld-Studio.exe" with
  | some f => (.ok ⟨f, [f], .empty⟩, d, 0)
  | none =>
    if ¬ s.auto_install_tools then
      (.error (.toolNotFound
        "LichtFeld Studio not found. Please install it and configure its path."), d, 0)
    else
      match _download_lichtfeld w d with
      | (.ok exe, d1, k) => (.ok ⟨exe, [exe], .empty⟩, d1, k)
      | (.error e, d1, k) => (.error e, d1, k)

/-! ### Workspace layout (workspace.py) -/

def Workspace.images_dir (root : String) : String := root ++ "/images"
def Workspace.colmap_dir (root : String) : String := root ++ "/colmap"
def Workspace.colmap_db (root : String) : String := root ++ "/colmap/database.db"
def Workspace.colmap_sparse (root : String) : String := root ++ "/colmap/sparse"
def Workspace.colmap_undistorted (root : String) : String := root ++ "/colmap/undistorted"

/-- The project handed to the COLMAP builders in `_run_colmap`. -/
def workspaceProj (root : String) : ColmapProject :=
  ⟨Workspace.images_dir root, Workspace.colmap_db root,
   Workspace.colmap_sparse root, Workspace.colmap_undistorted root⟩

/-! ### Pipeline orchestrator (pipeline.py) -/

/-- Run commands in sequence through the process service, mirroring the
orchestrator loop: `runner.run` raises on the first failure, so execution
stops there.  Returns the executed trace and the final outcome. -/
def runSeq (procOf : List String → SubprocessResult) :
    List (List String) → List (List String) × Except PErr Unit
  | [] => ([], .ok ())
  | c :: rest =>
    match CommandRunner.run c defaultTailLines (procOf c) with
    | .ok _ =>
      let r := runSeq procOf rest
      (c :: r.1, r.2)
    | .error e => ([c], .error e)

/-- Source `SplatPipeline._run_colmap`: build the four commands, run them in order,
then require the sparse model directory `sparse/0` to exist.
`dirExistsAfter` is the filesystem query made after the commands ran. -/
def _run_colmap (tool : ToolExec) (caps : String → Finset String)
    (cfg : ColmapConfig) (proj : ColmapProject)
    (procOf : List String → SubprocessResult) (dirExistsAfter : String → Bool) :
    List (List String) × Except PErr Unit :=
  let cmds := [(feature_extractor_cmd tool (caps "feature_extractor") proj cfg).1,
               (matcher_cmd tool caps proj cfg).1,
               (mapper_cmd tool proj).1,
               (undistort_cmd tool proj cfg).1]
  let r := runSeq procOf cmds
  match r.2 with
  | .error e => (r.1, .error e)
  | .ok _ =>
    if ¬ dirExistsAfter proj.sparse_model_dir then
      (r.1, .error (.validationErr
        ("COLMAP did not produce a sparse model (expected sparse/0). "
          ++ "Try increasing image count, using exhaustive matcher, or improving overlap.")))
    else (r.1, .ok ())

/-- Zero-padding of the per-video scratch directory index to three digits. -/
def pad3 (i : Nat) : String :=
  let s := toString i
  if s.length < 3 then String.mk (List.replicate (3 - s.length) '0') ++ s else s

/-- Ingest-stage oracles: video discovery and the image count found in the
workspace images directory afterwards. -/
structure IngestWorld where
  /-- the input path is a file (single video) rather than a directory. -/
  srcIsFile : Bool
  /-- recognised video files in the input directory, sorted by name. -/
  videosInDir : List String
  /-- The `iter_images` count over the workspace images dir after ingest. -/
  imagesAfter : Nat

/-- Source `SplatPipeline._ingest`.  For video input: requires sampling enabled,
discovers videos, then invokes the frame sampler once per video with the
per-video frame budget substituted into the sampling config.  For image
input: one sampler run over the directory when sampling is enabled, else a
plain copy.  Ends with the `_ensure_images` zero-count check.  Returns the
trace of sampler commands run. -/
def _ingest (cfg : PipelineConfig) (wsRoot : String) (sharpTool : ToolExec)
    (iw : IngestWorld) (procOf : List String → SubprocessResult) :
    Except PErr (List (List String)) :=
  let ensureImages : Except PErr Unit :=
    if iw.imagesAfter = 0 then
      .error (.validationErr
        "No images found after ingest. If you used iPhone HEIC photos, convert them to JPG/PNG first.")
    else .ok ()
  if cfg.input.type = InputType.video then
    if ¬ cfg.frame_sampling.enabled then
      .error (.validationErr "Video input requires frame_sampling.enabled = True")
    else
      let videos := if iw.srcIsFile then [cfg.input.path] else iw.videosInDir
      if videos.isEmpty then
        .error (.validationErr ("No video files found in: " ++ cfg.input.path))
      else
        let n := videos.length
        let cmds := (List.range n).map (fun i =>
          let fs_cfg := { cfg.frame_sampling with
                          num_frames := perVideoNumFrames cfg.frame_sampling n i }
          (SharpFramesArgs.to_command
            ⟨videos.getD i "", wsRoot ++ "/tmp_frames/v" ++ pad3 i,
             cfg.input.type, fs_cfg⟩ sharpTool).1)
        let r := runSeq procOf cmds
        match r.2 with
        | .error e => .error e
        | .ok _ =>
          match ensureImages with
          | .error e => .error e
          | .ok _ => .ok r.1
  else
    if cfg.frame_sampling.enabled then
      let cmd := (SharpFramesArgs.to_command
        ⟨cfg.input.path, Workspace.images_dir wsRoot, cfg.input.type,
         cfg.frame_sampling⟩ sharpTool).1
      let r := runSeq procOf [cmd]
      match r.2 with
      | .error e => .error e
      | .ok _ =>
        match ensureImages with
        | .error e => .error e
        | .ok _ => .ok r.1
    else
      match ensureImages with
      | .error e => .error e
      | .ok _ => .ok []

structure PipelineResult where
  workspace_dir : String
  output_dir : String
deriving DecidableEq, Repr

/-- What the run did to the per-run directories. -/
structure RunState where
  workspaceCreated : Bool
  outputDirCreated : Bool
  workspaceDeleted : Bool
deriving DecidableEq, Repr

/-- World for one orchestrated run: validation filesystem, resolved tools
(tool resolution outcomes abstracted), probed capabilities, subprocess
behaviour, ingest discovery, the post-mapping sparse-model check and the
export copy outcome. -/
structure PipelineWorld where
  fs : FileSystem
  /-- fresh workspace directory name (label plus timestamp). -/
  workspaceName : String
  /-- jobs directory the workspace is created under. -/
  jobsDir : String
  ingest : IngestWorld
  procOf : List String → SubprocessResult
  /-- outcome of `toolchain.colmap_exec()`. -/
  colmapTool : Except PErr ToolExec
  /-- Result of `toolchain.sharp_frames_exe()` (total). -/
  sharpTool : ToolExec
  /-- outcome of `toolchain.lichtfeld_exec()`. -/
  lichtfeldTool : Except PErr ToolExec
  /-- probed capability sets per COLMAP subcommand. -/
  caps : String → Finset String
  /-- directory-existence query made after the COLMAP commands ran. -/
  dirExistsAfter : String → Bool
  /-- the export copytree calls succeed. -/
  exportOk : Bool

/-- The post-workspace stage chain of `SplatPipeline.run`: Ingest, COLMAP
(whose tool presence is checked first via `toolchain.colmap_exec()`), Export
and LichtFeld, each exception aborting the rest. -/
def runStages (cfg : PipelineConfig) (w : PipelineWorld) : Except PErr Unit :=
  let wsRoot := w.jobsDir ++ "/" ++ w.workspaceName
  let outputDir := cfg.output.output_dir ++ "/" ++ w.workspaceName
  match _ingest cfg wsRoot w.sharpTool w.ingest w.procOf with
  | .error e => .error e
  | .ok _ =>
    match w.colmapTool with
    | .error e => .error e
    | .ok tool =>
      match (_run_colmap tool w.caps cfg.colmap (workspaceProj wsRoot)
          w.procOf w.dirExistsAfter).2 with
      | .error e => .error e
      | .ok _ =>
        if ¬ w.exportOk then .error (.unclassified "export copy failed")
        else
          match w.lichtfeldTool with
          | .error e => .error e
          | .ok ltool =>
            let cmd := (LichtfeldTrainArgs.to_command
              ⟨Workspace.colmap_undistorted wsRoot, outputDir, cfg.lichtfeld⟩ ltool).1
            CommandRunner.run cmd defaultTailLines (w.procOf cmd)

/-- Source `SplatPipeline.run`: validation happens before any directory is created;
then the workspace and per-run output directory exist for the rest of the
run; an exception escaping any stage leaves the workspace in place; on
success the workspace tree is deleted unless intermediates are kept, and the
result carries both paths. -/
def SplatPipeline.run (cfg : PipelineConfig) (w : PipelineWorld) :
    Except PErr PipelineResult × RunState :=
  match cfg.validate w.fs with
  | .error e => (.error e, ⟨false, false, false⟩)
  | .ok _ =>
    match runStages cfg w with
    | .error e => (.error e, ⟨true, true, false⟩)
    | .ok _ =>
      (.ok ⟨w.jobsDir ++ "/" ++ w.workspaceName,
            cfg.output.output_dir ++ "/" ++ w.workspaceName⟩,
       ⟨true, true, !cfg.output.keep_intermediates⟩)

/-! ## Proof infrastructure: segment view of `feature_extractor_cmd` -/

/-- The unconditional head of the feature-extraction command. -/
def feBase (tool : ToolExec) (proj : ColmapProject) (cfg : ColmapConfig) : List String :=
  tool.invoke ++
    ["feature_extractor",
     "--database_path", proj.database_path,
     "--image_path", proj.images_dir,
     "--ImageReader.camera_model", cfg.camera_model,
     "--ImageReader.single_camera", if cfg.single_camera then "1" else "0"]

/-- Capability-gated GPU toggle segment. -/
def feGpuPart (opts : Finset String) (cfg : ColmapConfig) : List String :=
  match _pick_option opts ["FeatureExtraction.use_gpu", "SiftExtraction.use_gpu"] with
  | some g => ["--" ++ g, if cfg.use_gpu then "1" else "0"]
  | none => []

/-- Capability-gated max-image-size segment. -/
def feSizePart (opts : Finset String) (cfg : ColmapConfig) : List String :=
  match _pick_option opts ["FeatureExtraction.max_image_size", "SiftExtraction.max_image_size"] with
  | some o => ["--" ++ o, toString cfg.max_image_size]
  | none => []

/-- Capability-gated thread-count segment. -/
def feThreadsPart (opts : Finset String) (cfg : ColmapConfig) : List String :=
  match _pick_option opts ["FeatureExtraction.num_threads", "SiftExtraction.num_threads"] with
  | some o => ["--" ++ o, toString cfg.num_threads]
  | none => []

/-- Capability-gated feature-count segment. -/
def feFeatPart (opts : Finset String) (cfg : ColmapConfig) : List String :=
  if "SiftExtraction.max_num_features" ∈ opts then
    ["--SiftExtraction.max_num_features", toString cfg.sift_max_num_features]
  else []

theorem feature_extractor_cmd_decomp (tool : ToolExec) (opts : Finset String)
    (proj : ColmapProject) (cfg : ColmapConfig) :
    (feature_extractor_cmd tool opts proj cfg).1 =
      feBase tool proj cfg ++ feGpuPart opts cfg ++ feSizePart opts cfg
        ++ feThreadsPart opts cfg ++ feFeatPart opts cfg := by
  unfold feature_extractor_cmd feBase feGpuPart feSizePart feThreadsPart feFeatPart
  cases _pick_option opts ["FeatureExtraction.use_gpu", "SiftExtraction.use_gpu"] <;>
  cases _pick_option opts ["FeatureExtraction.max_image_size", "SiftExtraction.max_image_size"] <;>
  cases _pick_option opts ["FeatureExtraction.num_threads", "SiftExtraction.num_threads"] <;>
  by_cases hf : "SiftExtraction.max_num_features" ∈ opts <;>
  simp [hf, List.append_assoc]

/-- Lemma: `_pick_option` over a two-candidate list, as nested conditionals. -/
theorem pick_option_pair (opts : Finset String) (a b : String) :
    _pick_option opts [a, b] =
      if a ∈ opts then some a else if b ∈ opts then some b else none := by
  unfold _pick_option
  by_cases ha : a ∈ opts <;> by_cases hb : b ∈ opts <;> simp [List.find?, ha, hb]

/-- The flag tokens whose emission C4 is about. -/
def colmapFlagTokens : List String :=
  ["--FeatureExtraction.use_gpu", "--SiftExtraction.use_gpu",
   "--FeatureExtraction.max_image_size", "--SiftExtraction.max_image_size",
   "--SiftExtraction.max_num_features"]

theorem feGpuPart_cover (opts : Finset String) (cfg : ColmapConfig) :
    ∀ s ∈ feGpuPart opts cfg,
      s = "--FeatureExtraction.use_gpu" ∨ s = "--SiftExtraction.use_gpu"
        ∨ s = "1" ∨ s = "0" := by
  intro s hs
  unfold feGpuPart at hs
  rw [pick_option_pair] at hs
  by_cases h1 : "FeatureExtraction.use_gpu" ∈ opts <;>
    by_cases h2 : "SiftExtraction.use_gpu" ∈ opts <;>
    by_cases hg : cfg.use_gpu = true <;>
    simp [h1, h2, hg] at hs <;>
    rcases hs with hs | hs <;> subst hs <;> decide

theorem feGpuPart_fe_iff (opts : Finset String) (cfg : ColmapConfig) :
    "--FeatureExtraction.use_gpu" ∈ feGpuPart opts cfg
      ↔ "FeatureExtraction.use_gpu" ∈ opts := by
  unfold feGpuPart
  rw [pick_option_pair]
  by_cases h1 : "FeatureExtraction.use_gpu" ∈ opts <;>
    by_cases h2 : "SiftExtraction.use_gpu" ∈ opts <;>
    by_cases hg : cfg.use_gpu = true <;>
    simp [h1, h2, hg]

theorem feGpuPart_se_iff (opts : Finset String) (cfg : ColmapConfig) :
    "--SiftExtraction.use_gpu" ∈ feGpuPart opts cfg
      ↔ ("SiftExtraction.use_gpu" ∈ opts ∧ "FeatureExtraction.use_gpu" ∉ opts) := by
  unfold feGpuPart
  rw [pick_option_pair]
  by_cases h1 : "FeatureExtraction.use_gpu" ∈ opts <;>
    by_cases h2 : "SiftExtraction.use_gpu" ∈ opts <;>
    by_cases hg : cfg.use_gpu = true <;>
    simp [h1, h2, hg]

theorem feSizePart_cover (opts : Finset String) (cfg : ColmapConfig) :
    ∀ s ∈ feSizePart opts cfg,
      s = "--FeatureExtraction.max_image_size" ∨ s = "--SiftExtraction.max_image_size"
        ∨ s = toString cfg.max_image_size := by
  intro s hs
  unfold feSizePart at hs
  rw [pick_option_pair] at hs
  by_cases h1 : "FeatureExtraction.max_image_size" ∈ opts <;>
    by_cases h2 : "SiftExtraction.max_image_size" ∈ opts <;>
    simp [h1, h2] at hs <;>
    rcases hs with hs | hs <;> subst hs <;> simp

theorem feSizePart_fe_iff (opts : Finset String) (cfg : ColmapConfig)
    (hv : "--FeatureExtraction.max_image_size" ≠ toString cfg.max_image_size) :
    "--FeatureExtraction.max_image_size" ∈ feSizePart opts cfg
      ↔ "FeatureExtraction.max_image_size" ∈ opts := by
  unfold feSizePart
  rw [pick_option_pair]
  by_cases h1 : "FeatureExtraction.max_image_size" ∈ opts <;>
    by_cases h2 : "SiftExtraction.max_image_size" ∈ opts <;>
    simp [h1, h2, hv]

theorem feSizePart_se_iff (opts : Finset String) (cfg : ColmapConfig)
    (hv : "--SiftExtraction.max_image_size" ≠ toString cfg.max_image_size) :
    "--SiftExtraction.max_image_size" ∈ feSizePart opts cfg
      ↔ ("SiftExtraction.max_image_size" ∈ opts
          ∧ "FeatureExtraction.max_image_size" ∉ opts) := by
  unfold feSizePart
  rw [pick_option_pair]
  by_cases h1 : "FeatureExtraction.max_image_size" ∈ opts <;>
    by_cases h2 : "SiftExtraction.max_image_size" ∈ opts <;>
    simp [h1, h2, hv]

theorem feThreadsPart_cover (opts : Finset String) (cfg : ColmapConfig) :
    ∀ s ∈ feThreadsPart opts cfg,
      s = "--FeatureExtraction.num_threads" ∨ s = "--SiftExtraction.num_threads"
        ∨ s = toString cfg.num_threads := by
  intro s hs
  unfold feThreadsPart at hs
  rw [pick_option_pair] at hs
  by_cases h1 : "FeatureExtraction.num_threads" ∈ opts <;>
    by_cases h2 : "SiftExtraction.num_threads" ∈ opts <;>
    simp [h1, h2] at hs <;>
    rcases hs with hs | hs <;> subst hs <;> simp

theorem feFeatPart_cover (opts : Finset String) (cfg : ColmapConfig) :
    ∀ s ∈ feFeatPart opts cfg,
      s = "--SiftExtraction.max_num_features" ∨ s = toString cfg.sift_max_num_features := by
  intro s hs
  unfold feFeatPart at hs
  by_cases h1 : "SiftExtraction.max_num_features" ∈ opts <;> simp [h1] at hs
  rcases hs with hs | hs <;> subst hs <;> simp

theorem feFeatPart_iff (opts : Finset String) (cfg : ColmapConfig) :
    "--SiftExtraction.max_num_features" ∈ feFeatPart opts cfg
      ↔ "SiftExtraction.max_num_features" ∈ opts := by
  unfold feFeatPart
  by_cases h1 : "SiftExtraction.max_num_features" ∈ opts <;> simp [h1]

/-! ## Theorems -/

/-! ### C1: per-video frame budget under "best-n" -/

theorem sum_indicator_lt (r n : ℕ) :
    (∑ i in Finset.range n, if i < r then 1 else 0) = min r n := by
  induction n with
  | zero => simp
  | succ n ih =>
    rw [Finset.sum_range_succ, ih]
    by_cases h : n < r <;> simp [h] <;> omega

theorem natQuota_sum (t n : ℕ) (hn : 0 < n) :
    (∑ i in Finset.range n, (t / n + if i < t % n then 1 else 0)) = t := by
  rw [Finset.sum_add_distrib, Finset.sum_const, Finset.card_range, smul_eq_mul,
    sum_indicator_lt, min_eq_left (le_of_lt (Nat.mod_lt t hn))]
  exact Nat.div_add_mod t n

/-- When the requested total covers every video (`n ≤ T`), the per-video
budget coincides with the plain `T / n` split plus remainder indicator,
expressed over `ℕ`. -/
theorem perVideoNumFrames_eq_natQuota (fs : FrameSamplingConfig) (n i : ℕ)
    (hm : fs.selection_method = SelectionMethod.bestN) (hn : 1 ≤ n)
    (hT : (n : Int) ≤ fs.num_frames) :
    perVideoNumFrames fs n i =
      ((fs.num_frames.toNat / n + if i < fs.num_frames.toNat % n then 1 else 0 : ℕ) : Int) := by
  have hT0 : (0 : Int) ≤ fs.num_frames := le_trans (Int.ofNat_nonneg n) hT
  have hcast : ((fs.num_frames.toNat : ℕ) : Int) = fs.num_frames := Int.toNat_of_nonneg hT0
  set t := fs.num_frames.toNat with htdef
  rcases Nat.lt_or_ge 1 n with h1n | h1n
  · have hn0 : 0 < n := lt_trans Nat.zero_lt_one h1n
    have htn : n ≤ t := by
      rw [← hcast] at hT
      exact_mod_cast hT
    have hdiv1 : 1 ≤ t / n := (Nat.one_le_div_iff hn0).mpr htn
    unfold perVideoNumFrames
    rw [if_pos ⟨hm, h1n⟩, ← hcast, ← Int.ofNat_fdiv, ← Int.ofNat_fmod]
    have hmax : max (1 : Int) ((t / n : ℕ) : Int) = ((t / n : ℕ) : Int) :=
      max_eq_right (by exact_mod_cast hdiv1)
    rw [hmax]
    by_cases hc : i < t % n
    · rw [if_pos (by exact_mod_cast hc), if_pos hc]; push_cast; ring
    · rw [if_neg (by exact_mod_cast hc), if_neg hc]; push_cast; ring
  · have hn1 : n = 1 := le_antisymm h1n hn
    subst hn1
    unfold perVideoNumFrames
    rw [if_neg (by simp)]
    simp [Nat.mod_one, Nat.div_one, hcast]

/-- C1 (amended): under "best-n", for `n ≥ 1` videos and a requested total of
`T ≥ n` frames, the per-video quotas computed by the orchestrator sum to
exactly `T`, any two quotas differ by at most 1, and a video receives the base
share plus one extra frame exactly when its index is below `T mod n`.
(As originally stated, with only `T ≥ 1`, the claim fails: the base share is
`max(1, T // n)`, so for `T < n` the quotas sum to `n + T`.) -/
theorem C1_best_n_quota_split (fs : FrameSamplingConfig) (n : ℕ)
    (hm : fs.selection_method = SelectionMethod.bestN)
    (hn : 1 ≤ n) (hT : (n : Int) ≤ fs.num_frames) :
    (∑ i in Finset.range n, perVideoNumFrames fs n i = fs.num_frames)
    ∧ (∀ i j, i < n → j < n →
        perVideoNumFrames fs n i - perVideoNumFrames fs n j ≤ 1)
    ∧ (∀ i, i < n →
        (perVideoNumFrames fs n i = Int.fdiv fs.num_frames (n : Int) + 1
          ↔ (i : Int) < Int.fmod fs.num_frames (n : Int))) := by
  have hT0 : (0 : Int) ≤ fs.num_frames := le_trans (Int.ofNat_nonneg n) hT
  have hcast : ((fs.num_frames.toNat : ℕ) : Int) = fs.num_frames := Int.toNat_of_nonneg hT0
  set t := fs.num_frames.toNat with htdef
  have hn0 : 0 < n := hn
  have hkey : ∀ i, perVideoNumFrames fs n i =
      ((t / n + if i < t % n then 1 else 0 : ℕ) : Int) :=
    fun i => perVideoNumFrames_eq_natQuota fs n i hm hn hT
  refine ⟨?_, ?_, ?_⟩
  · rw [Finset.sum_congr rfl (fun i _ => hkey i), ← Nat.cast_sum,
      natQuota_sum t n hn0, hcast]
  · intro i j _ _
    rw [hkey i, hkey j]
    split_ifs <;> push_cast <;> omega
  · intro i _
    have hfd : Int.fdiv fs.num_frames (n : Int) = ((t / n : ℕ) : Int) := by
      rw [← hcast, ← Int.ofNat_fdiv]
    have hfm : Int.fmod fs.num_frames (n : Int) = ((t % n : ℕ) : Int) := by
      rw [← hcast, ← Int.ofNat_fmod]
    rw [hkey i, hfd, hfm]
    constructor
    · intro h
      by_contra hc
      have hc2 : ¬ i < t % n := by
        intro hlt
        exact hc (by exact_mod_cast hlt)
      rw [if_neg hc2] at h
      push_cast at h
      omega
    · intro h
      have hc : i < t % n := by exact_mod_cast h
      rw [if_pos hc]
      push_cast
      ring

/-- C1, original statement, refuted: with 2 videos and a requested total of 1
frame under "best-n", the computed quotas are `[2, 1]` — their sum is 3, not
the requested total 1. -/
theorem C1_sum_counterexample :
    (∑ i in Finset.range 2,
        perVideoNumFrames ({ num_frames := 1 } : FrameSamplingConfig) 2 i) = 3
    ∧ ¬ (∑ i in Finset.range 2,
        perVideoNumFrames ({ num_frames := 1 } : FrameSamplingConfig) 2 i)
      = ({ num_frames := 1 } : FrameSamplingConfig).num_frames := by
  constructor <;> decide

/-- Witness for C1 at the spec example `T = 123`, `n = 5`. -/
theorem C1_best_n_quota_split_witness :
    (({ num_frames := 123 } : FrameSamplingConfig).selection_method = SelectionMethod.bestN
      ∧ 1 ≤ 5
      ∧ ((5 : ℕ) : Int) ≤ ({ num_frames := 123 } : FrameSamplingConfig).num_frames)
    ∧ (∑ i in Finset.range 5,
        perVideoNumFrames ({ num_frames := 123 } : FrameSamplingConfig) 5 i)
      = ({ num_frames := 123 } : FrameSamplingConfig).num_frames := by
  refine ⟨⟨rfl, by norm_num, by decide⟩, ?_⟩
  exact (C1_best_n_quota_split ({ num_frames := 123 } : FrameSamplingConfig) 5
    rfl (by norm_num) (by decide)).1

/-- The spec example itself: quotas `[25, 25, 25, 24, 24]` for `T = 123`,
`n = 5`. -/
theorem perVideoNumFrames_example :
    (List.range 5).map
      (perVideoNumFrames ({ num_frames := 123 } : FrameSamplingConfig) 5)
      = [25, 25, 25, 24, 24] := by
  decide

/-! ### C5: process-run exit semantics and bounded failure tail -/

/-- C5: `run` returns normally (with no result value) exactly when the
subprocess exits zero; on any nonzero exit it fails with `CommandFailed`
carrying the command vector, the exit code, and the tail of at most
`tail_lines` most recent output lines — never the full output when more
lines were produced. -/
theorem C5_run_exit_and_bounded_tail (command : List String) (tl : Nat)
    (proc : SubprocessResult) :
    (CommandRunner.run command tl proc = .ok () ↔ proc.returncode = 0)
    ∧ (proc.returncode ≠ 0 →
        CommandRunner.run command tl proc
          = .error (.commandFailed command proc.returncode
              (String.intercalate "\n"
                (proc.outputLines.drop (proc.outputLines.length - tl))))
        ∧ (runTail tl proc.outputLines).length = min tl proc.outputLines.length
        ∧ (tl < proc.outputLines.length →
            runTail tl proc.outputLines ≠ proc.outputLines)) := by
  constructor
  · unfold CommandRunner.run
    by_cases h : proc.returncode = 0 <;> simp [h]
  · intro h
    refine ⟨?_, runTail_length tl proc.outputLines, ?_⟩
    · unfold CommandRunner.run
      simp only [h, ne_eq, not_false_eq_true, if_true, runTail_eq_drop]
    · intro hlt heq
      have hl := runTail_length tl proc.outputLines
      rw [heq] at hl
      omega

/-- Witness for C5: a failing command whose 3 output lines are trimmed to the
2-line tail. -/
theorem C5_run_witness :
    ((1 : Int) ≠ 0)
    ∧ CommandRunner.run ["tool", "arg"] 2 ⟨["l1", "l2", "l3"], 1⟩
        = .error (.commandFailed ["tool", "arg"] 1 ("l2" ++ "\n" ++ "l3")) := by
  refine ⟨by decide, ?_⟩
  have h := (C5_run_exit_and_bounded_tail ["tool", "arg"] 2 ⟨["l1", "l2", "l3"], 1⟩).2
    (by decide)
  rw [h.1]
  rfl

/-! ### C2: capability probing, degradation and caching -/

/-- C2 (amended): the capability probe extracts the long-flag names from the
captured help text; a failure of the help invocation itself degrades to an
empty set (which, like every result, is cached so a later call performs no
further tool invocation and returns the identical set); but a failure to
resolve the executable — the `colmap_exec()` call made before the guarded
probe — propagates as an error rather than returning the empty set. -/
theorem C2_capabilities_probe (execRes : Except PErr ToolExec)
    (helpOf : String → Except PErr String) (cache : OptionsCache) (cmd : String) :
    (∀ tool e, execRes = .ok tool → helpOf cmd = .error e → cache.lookup cmd = none →
      colmap_options execRes helpOf cache cmd = .ok (∅, (cmd, ∅) :: cache, 1))
    ∧ (∀ tool out, execRes = .ok tool → helpOf cmd = .ok out → cache.lookup cmd = none →
      colmap_options execRes helpOf cache cmd
        = .ok (parseColmapOptions out, (cmd, parseColmapOptions out) :: cache, 1))
    ∧ (∀ opts, cache.lookup cmd = some opts →
      ∀ execRes2 helpOf2, colmap_options execRes2 helpOf2 cache cmd = .ok (opts, cache, 0))
    ∧ (∀ opts cache2 k, colmap_options execRes helpOf cache cmd = .ok (opts, cache2, k) →
        ∀ execRes2 helpOf2,
          colmap_options execRes2 helpOf2 cache2 cmd = .ok (opts, cache2, 0))
    ∧ (∀ e, execRes = .error e → cache.lookup cmd = none →
        colmap_options execRes helpOf cache cmd = .error e) := by
  refine ⟨?_, ?_, ?_, ?_, ?_⟩
  · intro tool e hex hh hc
    unfold colmap_options
    rw [hc, hex, hh]
  · intro tool out hex hh hc
    unfold colmap_options
    rw [hc, hex, hh]
  · intro opts hc execRes2 helpOf2
    unfold colmap_options
    rw [hc]
  · intro opts cache2 k hfirst execRes2 helpOf2
    unfold colmap_options at hfirst ⊢
    cases hc : cache.lookup cmd with
    | some o =>
      rw [hc] at hfirst
      cases hfirst
      rw [hc]
    | none =>
      rw [hc] at hfirst
      cases hex : execRes with
      | error e => rw [hex] at hfirst; cases hfirst
      | ok tool =>
        rw [hex] at hfirst
        cases hfirst
        simp [List.lookup]
  · intro e hex hc
    unfold colmap_options
    rw [hc, hex]

/-- Witness for C2: with a resolvable tool but a help invocation that fails
(nonzero exit), the probe yields the empty set and caches it. -/
theorem C2_capabilities_probe_witness :
    colmap_options (.ok ⟨"colmap", ["colmap"], .empty⟩)
      (fun _ => .error (.commandFailed ["colmap"] 1 "")) [] "feature_extractor"
      = .ok (∅, [("feature_extractor", ∅)], 1) :=
  (C2_capabilities_probe (.ok ⟨"colmap", ["colmap"], .empty⟩)
      (fun _ => .error (.commandFailed ["colmap"] 1 "")) [] "feature_extractor").1
    ⟨"colmap", ["colmap"], .empty⟩ (.commandFailed ["colmap"] 1 "") rfl rfl rfl

/-- C2, original statement, refuted: when the executable itself cannot be
resolved (here: a configured path that does not exist), the probe raises the
resolution error instead of returning the empty set. -/
theorem C2_probe_counterexample :
    colmap_options
      (.error (.toolNotFound "Configured COLMAP path does not exist: /missing/colmap"))
      (fun _ => .ok "") [] "feature_extractor"
      = .error (.toolNotFound "Configured COLMAP path does not exist: /missing/colmap") := by
  rfl

/-! ### C4: capability-gated flag emission in the feature-extraction builder -/

/-- C4 (amended): a GPU flag is emitted iff the capability set contains one of
the two GPU names, preferring `FeatureExtraction.use_gpu`; the max-image-size
flag is emitted under the first present name variant; and the feature-count
flag is emitted iff `SiftExtraction.max_num_features` is itself in the
capability set (as originally stated — "still emitted" unconditionally — the
claim fails, e.g. on the empty capability set).  The hygiene hypotheses say
that no flag token collides with the unconditional head tokens nor with the
rendered numeric values. -/
theorem C4_feature_extractor_capability_gating (tool : ToolExec) (opts : Finset String)
    (proj : ColmapProject) (cfg : ColmapConfig)
    (hbase : ∀ s ∈ colmapFlagTokens, s ∉ feBase tool proj cfg)
    (hnum : ∀ s ∈ colmapFlagTokens,
      s ≠ toString cfg.max_image_size ∧ s ≠ toString cfg.num_threads
        ∧ s ≠ toString cfg.sift_max_num_features) :
    ∀ cmd, cmd = (feature_extractor_cmd tool opts proj cfg).1 →
      (("--FeatureExtraction.use_gpu" ∈ cmd ∨ "--SiftExtraction.use_gpu" ∈ cmd)
         ↔ ("FeatureExtraction.use_gpu" ∈ opts ∨ "SiftExtraction.use_gpu" ∈ opts))
      ∧ ("--FeatureExtraction.use_gpu" ∈ cmd ↔ "FeatureExtraction.use_gpu" ∈ opts)
      ∧ ("--SiftExtraction.use_gpu" ∈ cmd
           ↔ ("SiftExtraction.use_gpu" ∈ opts ∧ "FeatureExtraction.use_gpu" ∉ opts))
      ∧ ("--FeatureExtraction.max_image_size" ∈ cmd
           ↔ "FeatureExtraction.max_image_size" ∈ opts)
      ∧ ("--SiftExtraction.max_image_size" ∈ cmd
           ↔ ("SiftExtraction.max_image_size" ∈ opts
               ∧ "FeatureExtraction.max_image_size" ∉ opts))
      ∧ ("--SiftExtraction.max_num_features" ∈ cmd
           ↔ "SiftExtraction.max_num_features" ∈ opts) := by
  intro cmd hcmd
  subst hcmd
  rw [feature_extractor_cmd_decomp]
  have hb1 := hbase "--FeatureExtraction.use_gpu" (by decide)
  have hb2 := hbase "--SiftExtraction.use_gpu" (by decide)
  have hb3 := hbase "--FeatureExtraction.max_image_size" (by decide)
  have hb4 := hbase "--SiftExtraction.max_image_size" (by decide)
  have hb5 := hbase "--SiftExtraction.max_num_features" (by decide)
  have hn1 := hnum "--FeatureExtraction.use_gpu" (by decide)
  have hn2 := hnum "--SiftExtraction.use_gpu" (by decide)
  have hn3 := hnum "--FeatureExtraction.max_image_size" (by decide)
  have hn4 := hnum "--SiftExtraction.max_image_size" (by decide)
  have hn5 := hnum "--SiftExtraction.max_num_features" (by decide)
  have t1S : "--FeatureExtraction.use_gpu" ∉ feSizePart opts cfg := by
    intro h
    rcases feSizePart_cover opts cfg _ h with h | h | h
    · exact absurd h (by decide)
    · exact absurd h (by decide)
    · exact hn1.1 h
  have t1T : "--FeatureExtraction.use_gpu" ∉ feThreadsPart opts cfg := by
    intro h
    rcases feThreadsPart_cover opts cfg _ h with h | h | h
    · exact absurd h (by decide)
    · exact absurd h (by decide)
    · exact hn1.2.1 h
  have t1F : "--FeatureExtraction.use_gpu" ∉ feFeatPart opts cfg := by
    intro h
    rcases feFeatPart_cover opts cfg _ h with h | h
    · exact absurd h (by decide)
    · exact hn1.2.2 h
  have t2S : "--SiftExtraction.use_gpu" ∉ feSizePart opts cfg := by
    intro h
    rcases feSizePart_cover opts cfg _ h with h | h | h
    · exact absurd h (by decide)
    · exact absurd h (by decide)
    · exact hn2.1 h
  have t2T : "--SiftExtraction.use_gpu" ∉ feThreadsPart opts cfg := by
    intro h
    rcases feThreadsPart_cover opts cfg _ h with h | h | h
    · exact absurd h (by decide)
    · exact absurd h (by decide)
    · exact hn2.2.1 h
  have t2F : "--SiftExtraction.use_gpu" ∉ feFeatPart opts cfg := by
    intro h
    rcases feFeatPart_cover opts cfg _ h with h | h
    · exact absurd h (by decide)
    · exact hn2.2.2 h
  have t3G : "--FeatureExtraction.max_image_size" ∉ feGpuPart opts cfg := by
    intro h
    rcases feGpuPart_cover opts cfg _ h with h | h | h | h <;> exact absurd h (by decide)
  have t3T : "--FeatureExtraction.max_image_size" ∉ feThreadsPart opts cfg := by
    intro h
    rcases feThreadsPart_cover opts cfg _ h with h | h | h
    · exact absurd h (by decide)
    · exact absurd h (by decide)
    · exact hn3.2.1 h
  have t3F : "--FeatureExtraction.max_image_size" ∉ feFeatPart opts cfg := by
    intro h
    rcases feFeatPart_cover opts cfg _ h with h | h
    · exact absurd h (by decide)
    · exact hn3.2.2 h
  have t4G : "--SiftExtraction.max_image_size" ∉ feGpuPart opts cfg := by
    intro h
    rcases feGpuPart_cover opts cfg _ h with h | h | h | h <;> exact absurd h (by decide)
  have t4T : "--SiftExtraction.max_image_size" ∉ feThreadsPart opts cfg := by
    intro h
    rcases feThreadsPart_cover opts cfg _ h with h | h | h
    · exact absurd h (by decide)
    · exact absurd h (by decide)
    · exact hn4.2.1 h
  have t4F : "--SiftExtraction.max_image_size" ∉ feFeatPart opts cfg := by
    intro h
    rcases feFeatPart_cover opts cfg _ h with h | h
    · exact absurd h (by decide)
    · exact hn4.2.2 h
  have t5G : "--SiftExtraction.max_num_features" ∉ feGpuPart opts cfg := by
    intro h
    rcases feGpuPart_cover opts cfg _ h with h | h | h | h <;> exact absurd h (by decide)
  have t5S : "--SiftExtraction.max_num_features" ∉ feSizePart opts cfg := by
    intro h
    rcases feSizePart_cover opts cfg _ h with h | h | h
    · exact absurd h (by decide)
    · exact absurd h (by decide)
    · exact hn5.1 h
  have t5T : "--SiftExtraction.max_num_features" ∉ feThreadsPart opts cfg := by
    intro h
    rcases feThreadsPart_cover opts cfg _ h with h | h | h
    · exact absurd h (by decide)
    · exact absurd h (by decide)
    · exact hn5.2.1 h
  refine ⟨?_, ?_, ?_, ?_, ?_, ?_⟩
  · simp only [List.mem_append, hb1, hb2, t1S, t1T, t1F, t2S, t2T, t2F,
      feGpuPart_fe_iff, feGpuPart_se_iff, false_or, or_false]
    tauto
  · simp [List.mem_append, hb1, t1S, t1T, t1F, feGpuPart_fe_iff]
  · simp [List.mem_append, hb2, t2S, t2T, t2F, feGpuPart_se_iff]
  · simp [List.mem_append, hb3, t3G, t3T, t3F, feSizePart_fe_iff opts cfg hn3.1]
  · simp [List.mem_append, hb4, t4G, t4T, t4F, feSizePart_se_iff opts cfg hn4.1]
  · simp [List.mem_append, hb5, t5G, t5S, t5T, feFeatPart_iff]

/-- Witness for C4, at the spec test capability set
`{FeatureExtraction.max_image_size, SiftExtraction.max_num_features}`:
no GPU flag, max-image-size under the `FeatureExtraction.*` name, and the
feature-count flag present. -/
theorem C4_feature_extractor_witness :
    ¬ ("--FeatureExtraction.use_gpu" ∈
          (feature_extractor_cmd ⟨"/usr/bin/colmap", ["/usr/bin/colmap"], .empty⟩
            ({"FeatureExtraction.max_image_size", "SiftExtraction.max_num_features"} : Finset String)
            ⟨"images", "database.db", "sparse", "undistorted"⟩ {}).1
        ∨ "--SiftExtraction.use_gpu" ∈
          (feature_extractor_cmd ⟨"/usr/bin/colmap", ["/usr/bin/colmap"], .empty⟩
            ({"FeatureExtraction.max_image_size", "SiftExtraction.max_num_features"} : Finset String)
            ⟨"images", "database.db", "sparse", "undistorted"⟩ {}).1)
    ∧ "--FeatureExtraction.max_image_size" ∈
        (feature_extractor_cmd ⟨"/usr/bin/colmap", ["/usr/bin/colmap"], .empty⟩
          ({"FeatureExtraction.max_image_size", "SiftExtraction.max_num_features"} : Finset String)
          ⟨"images", "database.db", "sparse", "undistorted"⟩ {}).1
    ∧ "--SiftExtraction.max_num_features" ∈
        (feature_extractor_cmd ⟨"/usr/bin/colmap", ["/usr/bin/colmap"], .empty⟩
          ({"FeatureExtraction.max_image_size", "SiftExtraction.max_num_features"} : Finset String)
          ⟨"images", "database.db", "sparse", "undistorted"⟩ {}).1 := by
  have h := C4_feature_extractor_capability_gating
    ⟨"/usr/bin/colmap", ["/usr/bin/colmap"], .empty⟩
    ({"FeatureExtraction.max_image_size", "SiftExtraction.max_num_features"} : Finset String)
    ⟨"images", "database.db", "sparse", "undistorted"⟩ {}
    (by decide) (by decide) _ rfl
  refine ⟨fun hc => ?_, ?_, ?_⟩
  · rcases h.1.mp hc with hc2 | hc2 <;> revert hc2 <;> decide
  · exact h.2.2.2.1.mpr (by decide)
  · exact h.2.2.2.2.2.mpr (by decide)

/-- C4, original statement, refuted: on the empty capability set (no GPU flag
variant present) the builder emits no feature-count flag either, contradicting
"the feature-count flag is still emitted". -/
theorem C4_feat_count_counterexample :
    ("FeatureExtraction.use_gpu" ∉ (∅ : Finset String)
      ∧ "SiftExtraction.use_gpu" ∉ (∅ : Finset String))
    ∧ "--SiftExtraction.max_num_features" ∉
        (feature_extractor_cmd ⟨"/usr/bin/colmap", ["/usr/bin/colmap"], .empty⟩
          (∅ : Finset String)
          ⟨"images", "database.db", "sparse", "undistorted"⟩ {}).1 := by
  decide

/-! ### C3: reconstruction stage order and sparse-model check -/

theorem CommandRunner_run_ok (c : List String) (tl : Nat) (p : SubprocessResult)
    (h : p.returncode = 0) : CommandRunner.run c tl p = .ok () := by
  unfold CommandRunner.run
  simp [h]

theorem runSeq_all_ok (procOf : List String → SubprocessResult)
    (h : ∀ c, (procOf c).returncode = 0) :
    ∀ cmds, runSeq procOf cmds = (cmds, .ok ())
  | [] => rfl
  | c :: rest => by
    unfold runSeq
    rw [CommandRunner_run_ok c defaultTailLines (procOf c) (h c),
      runSeq_all_ok procOf h rest]

theorem feature_extractor_cmd_head (tool : ToolExec) (opts : Finset String)
    (proj : ColmapProject) (cfg : ColmapConfig) :
    getElem? (feature_extractor_cmd tool opts proj cfg).1 tool.invoke.length
      = some "feature_extractor" := by
  rw [feature_extractor_cmd_decomp]
  unfold feBase
  simp [List.append_assoc, List.getElem?_append_right, List.getElem_append_right,
    List.getElem_cons_zero]

theorem matcher_cmd_head (tool : ToolExec) (caps : String → Finset String)
    (proj : ColmapProject) (cfg : ColmapConfig) :
    getElem? (matcher_cmd tool caps proj cfg).1 tool.invoke.length
      = some (if cfg.matcher = ColmapMatcher.sequential then "sequential_matcher"
              else "exhaustive_matcher") := by
  unfold matcher_cmd
  by_cases hm : cfg.matcher = ColmapMatcher.sequential <;>
    simp only [hm, if_true, if_false, reduceIte] <;>
    cases _pick_option (caps "sequential_matcher")
        ["FeatureMatching.use_gpu", "SiftMatching.use_gpu"] <;>
    cases _pick_option (caps "exhaustive_matcher")
        ["FeatureMatching.use_gpu", "SiftMatching.use_gpu"] <;>
    by_cases ho : "SequentialMatching.overlap" ∈ caps "sequential_matcher" <;>
    simp [ho, List.append_assoc, List.getElem?_append_right, List.getElem_append_right,
      List.getElem_cons_zero]

theorem mapper_cmd_head (tool : ToolExec) (proj : ColmapProject) :
    getElem? (mapper_cmd tool proj).1 tool.invoke.length = some "mapper" := by
  unfold mapper_cmd
  simp [List.getElem?_append_right, List.getElem_append_right, List.getElem_cons_zero]

theorem undistort_cmd_head (tool : ToolExec) (proj : ColmapProject) (cfg : ColmapConfig) :
    getElem? (undistort_cmd tool proj cfg).1 tool.invoke.length
      = some "image_undistorter" := by
  unfold undistort_cmd
  simp [List.getElem?_append_right, List.getElem_append_right, List.getElem_cons_zero]

/-- C3: when every subprocess invocation succeeds, the reconstruction stage
executes exactly four commands, whose subcommands — read off right after the
tool invocation tokens — are feature extraction, matching (sequential or
exhaustive per the configured matcher), mapping and undistortion, in that
order; and the stage succeeds iff the sparse-model directory `sparse/0`
exists afterwards, failing otherwise with the ValidationError that suggests
more images or a different matcher. -/
theorem C3_colmap_order_and_sparse_check (tool : ToolExec)
    (caps : String → Finset String) (cfg : ColmapConfig) (proj : ColmapProject)
    (procOf : List String → SubprocessResult) (dirExistsAfter : String → Bool)
    (hok : ∀ c, (procOf c).returncode = 0) :
    ((_run_colmap tool caps cfg proj procOf dirExistsAfter).1.map
        (fun c => getElem? c tool.invoke.length)
      = [some "feature_extractor",
         some (if cfg.matcher = ColmapMatcher.sequential then "sequential_matcher"
               else "exhaustive_matcher"),
         some "mapper", some "image_undistorter"])
    ∧ ((_run_colmap tool caps cfg proj procOf dirExistsAfter).2 = .ok ()
        ↔ dirExistsAfter proj.sparse_model_dir = true)
    ∧ (dirExistsAfter proj.sparse_model_dir = false →
        (_run_colmap tool caps cfg proj procOf dirExistsAfter).2
          = .error (.validationErr
              ("COLMAP did not produce a sparse model (expected sparse/0). "
                ++ "Try increasing image count, using exhaustive matcher, or improving overlap."))) := by
  have hseq := runSeq_all_ok procOf hok
  unfold _run_colmap
  simp only [hseq]
  refine ⟨?_, ?_, ?_⟩
  · cases hd : dirExistsAfter proj.sparse_model_dir <;>
      simp [hd, feature_extractor_cmd_head, matcher_cmd_head, mapper_cmd_head,
        undistort_cmd_head]
  · cases hd : dirExistsAfter proj.sparse_model_dir <;> simp [hd]
  · intro hd
    simp [hd]

/-- Witness for C3: a concrete succeeding run with the sparse directory
present, and the same run failing when it is absent. -/
theorem C3_colmap_order_witness :
    ((_run_colmap ⟨"/usr/bin/colmap", ["/usr/bin/colmap"], .empty⟩ (fun _ => ∅) {}
        (workspaceProj "ws") (fun _ => ⟨[], 0⟩) (fun _ => true)).1.map
        (fun c => getElem? c (["/usr/bin/colmap"] : List String).length)
      = [some "feature_extractor", some "exhaustive_matcher",
         some "mapper", some "image_undistorter"])
    ∧ (_run_colmap ⟨"/usr/bin/colmap", ["/usr/bin/colmap"], .empty⟩ (fun _ => ∅) {}
        (workspaceProj "ws") (fun _ => ⟨[], 0⟩) (fun _ => true)).2 = .ok () := by
  have h := C3_colmap_order_and_sparse_check ⟨"/usr/bin/colmap", ["/usr/bin/colmap"], .empty⟩
    (fun _ => ∅) {} (workspaceProj "ws") (fun _ => ⟨[], 0⟩) (fun _ => true)
    (fun _ => rfl)
  exact ⟨h.1, h.2.1.mpr rfl⟩

/-! ### C6: explicit settings paths are verbatim-or-fatal -/

/-- C6: for either tool with an explicitly configured path, resolution uses
the existing path verbatim as the executable, or fails immediately with
ToolNotFoundError when it is missing; in both cases the disk state is
untouched, no install action happens, and the outcome is identical for any
state of the PATH lookup and install machinery (it depends only on the
existence of the path and, for COLMAP, the platform). -/
theorem C6_explicit_path_resolution (s : Settings) (w : ResolveWorld) (d : DiskState)
    (p q : String) (hc : s.tool_paths.colmap = some p)
    (hl : s.tool_paths.lichtfeld = some q) :
    (w.pathExists p = true → ∃ t, colmap_exec s w d = (.ok t, d, 0) ∧ t.exe = p)
    ∧ (w.pathExists p = false →
        colmap_exec s w d
          = (.error (.toolNotFound ("Configured COLMAP path does not exist: " ++ p)), d, 0))
    ∧ (∀ w2 d2, w2.pathExists p = w.pathExists p → w2.isWindows = w.isWindows →
        (colmap_exec s w2 d2).1 = (colmap_exec s w d).1
          ∧ (colmap_exec s w2 d2).2 = (d2, 0))
    ∧ (w.pathExists q = true → lichtfeld_exec s w d = (.ok ⟨q, [q], .empty⟩, d, 0))
    ∧ (w.pathExists q = false →
        lichtfeld_exec s w d
          = (.error (.toolNotFound ("Configured LichtFeld path does not exist: " ++ q)), d, 0))
    ∧ (∀ w2 d2, w2.pathExists q = w.pathExists q →
        (lichtfeld_exec s w2 d2).1 = (lichtfeld_exec s w d).1
          ∧ (lichtfeld_exec s w2 d2).2 = (d2, 0)) := by
  refine ⟨?_, ?_, ?_, ?_, ?_, ?_⟩
  · intro hep
    unfold colmap_exec
    rw [hc]
    by_cases hW : w.isWindows = true <;> by_cases hS : hasWinScriptSuffix p = true <;>
      simp [hep, hW, hS]
  · intro hep
    unfold colmap_exec
    rw [hc]
    simp [hep]
  · intro w2 d2 hpe hwin
    unfold colmap_exec
    rw [hc]
    cases hep : w.pathExists p <;> rw [hep] at hpe <;>
      by_cases hW : w.isWindows = true <;> by_cases hS : hasWinScriptSuffix p = true <;>
      simp [hpe, hep, hW, hS, hwin]
  · intro hep
    unfold lichtfeld_exec
    rw [hl]
    simp [hep]
  · intro hep
    unfold lichtfeld_exec
    rw [hl]
    simp [hep]
  · intro w2 d2 hpe
    unfold lichtfeld_exec
    rw [hl]
    cases hep : w.pathExists q <;> rw [hep] at hpe <;> simp [hpe, hep]

/-- Witness for C6: a configured path that does not exist fails immediately
for both tools, leaving the disk state untouched. -/
theorem C6_explicit_path_witness :
    colmap_exec
        { tool_paths := { colmap := some "/missing/colmap", lichtfeld := some "/missing/lf" } }
        { isWindows := false, platformSupported := true, pathExists := fun _ => false,
          which := fun _ => none, downloadOk := true, latestTag := .ok "3.13.0",
          extractYieldsBat := true, createEnvOk := true, releaseApiOk := true,
          lichtfeldAssetFound := true, lichtfeldExeFound := some "LichtFeld-Studio" }
        ⟨false, false, false, false, false⟩
      = (.error (.toolNotFound "Configured COLMAP path does not exist: /missing/colmap"),
         ⟨false, false, false, false, false⟩, 0)
    ∧ lichtfeld_exec
        { tool_paths := { colmap := some "/missing/colmap", lichtfeld := some "/missing/lf" } }
        { isWindows := false, platformSupported := true, pathExists := fun _ => false,
          which := fun _ => none, downloadOk := true, latestTag := .ok "3.13.0",
          extractYieldsBat := true, createEnvOk := true, releaseApiOk := true,
          lichtfeldAssetFound := true, lichtfeldExeFound := some "LichtFeld-Studio" }
        ⟨false, false, false, false, false⟩
      = (.error (.toolNotFound "Configured LichtFeld path does not exist: /missing/lf"),
         ⟨false, false, false, false, false⟩, 0) := by
  have h := C6_explicit_path_resolution
    { tool_paths := { colmap := some "/missing/colmap", lichtfeld := some "/missing/lf" } }
    { isWindows := false, platformSupported := true, pathExists := fun _ => false,
      which := fun _ => none, downloadOk := true, latestTag := .ok "3.13.0",
      extractYieldsBat := true, createEnvOk := true, releaseApiOk := true,
      lichtfeldAssetFound := true, lichtfeldExeFound := some "LichtFeld-Studio" }
    ⟨false, false, false, false, false⟩ "/missing/colmap" "/missing/lf" rfl rfl
  exact ⟨h.2.1 rfl, h.2.2.2.2.1 rfl⟩

/-! ### C9: frame-sampler resolution is total -/

/-- C9: resolving the frame-sampler tool always yields a descriptor — the
PATH hit when present, otherwise the current Python interpreter invoked with
`-m sharp_frames` — and never fails; the definition takes neither settings
nor disk state, so explicit paths, the auto-install flag and marker files
play no part.  Resolution of the other two tools, by contrast, can fail with
ToolNotFoundError. -/
theorem C9_sharp_frames_resolution_total (w : ResolveWorld) (sysExecutable : String) :
    ((∃ f, w.which "sharp-frames" = some f
        ∧ sharp_frames_exe w sysExecutable = ⟨f, [f], .empty⟩)
      ∨ (w.which "sharp-frames" = none
        ∧ sharp_frames_exe w sysExecutable
            = ⟨sysExecutable, [sysExecutable, "-m", "sharp_frames"], .empty⟩))
    ∧ (∃ s2 w2 d2 m, (colmap_exec s2 w2 d2).1 = .error (.toolNotFound m))
    ∧ (∃ s2 w2 d2 m, (lichtfeld_exec s2 w2 d2).1 = .error (.toolNotFound m)) := by
  refine ⟨?_, ?_, ?_⟩
  · unfold sharp_frames_exe
    cases hw : w.which "sharp-frames" with
    | some f => exact .inl ⟨f, rfl, rfl⟩
    | none => exact .inr ⟨rfl, rfl⟩
  · exact ⟨{ tool_paths := { colmap := some "/missing/colmap" } },
      { isWindows := false, platformSupported := true, pathExists := fun _ => false,
        which := fun _ => none, downloadOk := true, latestTag := .ok "3.13.0",
        extractYieldsBat := true, createEnvOk := true, releaseApiOk := true,
        lichtfeldAssetFound := true, lichtfeldExeFound := none },
      ⟨false, false, false, false, false⟩,
      "Configured COLMAP path does not exist: /missing/colmap", rfl⟩
  · exact ⟨{ tool_paths := { lichtfeld := some "/missing/lf" } },
      { isWindows := false, platformSupported := true, pathExists := fun _ => false,
        which := fun _ => none, downloadOk := true, latestTag := .ok "3.13.0",
        extractYieldsBat := true, createEnvOk := true, releaseApiOk := true,
        lichtfeldAssetFound := true, lichtfeldExeFound := none },
      ⟨false, false, false, false, false⟩,
      "Configured LichtFeld path does not exist: /missing/lf", rfl⟩

/-! ### C7: install markers and idempotency -/

/-- C7 (amended): both installers write their marker only after a successful
installation, and a marker present short-circuits re-installation — in
particular the managed-environment installer performs no package-manager
invocation on a second call.  The official COLMAP installer additionally
re-validates a pre-existing marker by locating the expected executable,
unlinking the marker and reinstalling when it is missing; the
managed-environment installer performs no such validation and returns success
on the marker alone (so its stale marker is not retried — the original
original "never as success" wording fails there). -/
theorem C7_marker_idempotency (s : Settings) (w : ResolveWorld) (d : DiskState) :
    (d.envMarker = true → ensure_env s w d = (.ok "envs/colmap", d, 0))
    ∧ (d.envMarker = false →
        ((∃ v d1 k, ensure_env s w d = (.ok v, d1, k) ∧ d1.envMarker = true ∧ 1 ≤ k)
          ∨ (∃ e d1 k, ensure_env s w d = (.error e, d1, k) ∧ d1.envMarker = false)))
    ∧ (d.officialMarker = true → d.officialBatPresent = true →
        w.isWindows = true → s.auto_install_tools = true →
        s.colmap.version = "3.13.0" →
        ensure_colmap_official s w d = (.ok "COLMAP.bat", d, 0))
    ∧ (d.officialMarker = true → d.officialBatPresent = false →
        w.isWindows = true → s.auto_install_tools = true →
        s.colmap.version = "3.13.0" → w.downloadOk = true →
        ((w.extractYieldsBat = true →
            ensure_colmap_official s w d
              = (.ok "COLMAP.bat",
                 { d with officialMarker := true, officialBatPresent := true }, 1))
          ∧ (w.extractYieldsBat = false →
            ensure_colmap_official s w d
              = (.error (.toolNotFound
                  "Downloaded COLMAP, but could not locate COLMAP.bat in the archive."),
                 { d with officialMarker := false, officialBatPresent := false }, 1)))) := by
  have hver : ¬ (strLower (strStrip "3.13.0") = "latest") := by decide
  refine ⟨?_, ?_, ?_, ?_⟩
  · intro hm
    unfold ensure_env
    simp [hm]
  · intro hm
    unfold ensure_env ensure_micromamba
    by_cases ha : s.auto_install_tools = true
    · by_cases hmm : d.micromambaPresent = true
      · by_cases hce : w.createEnvOk = true
        · simp only [hm, ha, hmm, hce, Bool.false_eq_true, if_false, if_true, reduceIte,
            not_true, not_false_eq_true]
          exact .inl ⟨"envs/colmap", _, _, rfl, rfl, by omega⟩
        · simp only [hm, ha, hmm, hce, Bool.false_eq_true, if_false, if_true, reduceIte,
            not_true, not_false_eq_true]
          exact .inr ⟨_, _, _, rfl, by simp [hm]⟩
      · by_cases hps : w.platformSupported = true
        · by_cases hdl : w.downloadOk = true
          · by_cases hce : w.createEnvOk = true
            · simp only [hm, ha, hmm, hps, hdl, hce, Bool.false_eq_true, if_false, if_true,
                reduceIte, not_true, not_false_eq_true]
              exact .inl ⟨"envs/colmap", _, _, rfl, rfl, by omega⟩
            · simp only [hm, ha, hmm, hps, hdl, hce, Bool.false_eq_true, if_false, if_true,
                reduceIte, not_true, not_false_eq_true]
              exact .inr ⟨_, _, _, rfl, by simp [hm]⟩
          · simp only [hm, ha, hmm, hps, hdl, Bool.false_eq_true, if_false, if_true,
              reduceIte, not_true, not_false_eq_true]
            exact .inr ⟨_, _, _, rfl, by simp [hm]⟩
        · simp only [hm, ha, hmm, hps, Bool.false_eq_true, if_false, if_true, reduceIte,
            not_true, not_false_eq_true]
          exact .inr ⟨_, _, _, rfl, by simp [hm]⟩
    · simp only [hm, ha, Bool.false_eq_true, if_false, if_true, reduceIte, not_true,
        not_false_eq_true]
      exact .inr ⟨_, _, _, rfl, by simp [hm]⟩
  · intro hm hbat hwin hauto hv
    unfold ensure_colmap_official
    rw [hv]
    simp [hwin, hauto, hver, hm, hbat]
  · intro hm hbat hwin hauto hv hdl
    constructor
    · intro hex
      unfold ensure_colmap_official
      rw [hv]
      simp [hwin, hauto, hver, hm, hbat, hdl, hex]
    · intro hex
      unfold ensure_colmap_official
      rw [hv]
      simp [hwin, hauto, hver, hm, hbat, hdl, hex]


/-- Witness for C7: a present env marker short-circuits (no package-manager
invocation), and a stale official marker (executable missing) is unlinked and
the install retried successfully. -/
theorem C7_marker_idempotency_witness :
    ensure_env {}
        { isWindows := true, platformSupported := true, pathExists := fun _ => true,
          which := fun _ => none, downloadOk := true, latestTag := .ok "3.13.0",
          extractYieldsBat := true, createEnvOk := true, releaseApiOk := true,
          lichtfeldAssetFound := true, lichtfeldExeFound := none }
        ⟨true, true, false, false, false⟩
      = (.ok "envs/colmap", ⟨true, true, false, false, false⟩, 0)
    ∧ ensure_colmap_official { colmap := { version := "3.13.0" } }
        { isWindows := true, platformSupported := true, pathExists := fun _ => true,
          which := fun _ => none, downloadOk := true, latestTag := .ok "3.13.0",
          extractYieldsBat := true, createEnvOk := true, releaseApiOk := true,
          lichtfeldAssetFound := true, lichtfeldExeFound := none }
        ⟨false, false, false, true, false⟩
      = (.ok "COLMAP.bat", ⟨false, false, false, true, true⟩, 1) := by
  have h := C7_marker_idempotency { colmap := { version := "3.13.0" } }
    { isWindows := true, platformSupported := true, pathExists := fun _ => true,
      which := fun _ => none, downloadOk := true, latestTag := .ok "3.13.0",
      extractYieldsBat := true, createEnvOk := true, releaseApiOk := true,
      lichtfeldAssetFound := true, lichtfeldExeFound := none }
    ⟨false, false, false, true, false⟩
  have h2 := C7_marker_idempotency {}
    { isWindows := true, platformSupported := true, pathExists := fun _ => true,
      which := fun _ => none, downloadOk := true, latestTag := .ok "3.13.0",
      extractYieldsBat := true, createEnvOk := true, releaseApiOk := true,
      lichtfeldAssetFound := true, lichtfeldExeFound := none }
    ⟨true, true, false, false, false⟩
  exact ⟨h2.1 rfl, (h.2.2.2 rfl rfl rfl rfl rfl rfl).1 rfl⟩

/-- C7, original statement, refuted: a stale managed-environment marker —
present while the expected executable is missing — is treated as success:
the installer returns the environment with the marker still in place and
zero package-manager invocations, instead of removing the marker and
retrying. -/
theorem C7_stale_env_marker_counterexample :
    (⟨true, true, false, false, false⟩ : DiskState).envMarker = true
    ∧ (⟨true, true, false, false, false⟩ : DiskState).envExePresent = false
    ∧ ensure_env {}
        { isWindows := false, platformSupported := true, pathExists := fun _ => true,
          which := fun _ => none, downloadOk := true, latestTag := .ok "3.13.0",
          extractYieldsBat := true, createEnvOk := true, releaseApiOk := true,
          lichtfeldAssetFound := true, lichtfeldExeFound := none }
        ⟨true, true, false, false, false⟩
      = (.ok "envs/colmap", ⟨true, true, false, false, false⟩, 0) := by
  exact ⟨rfl, rfl, rfl⟩

/-! ### C8: workspace cleanup on success, retention on failure -/

/-- C8: a successful run deletes the workspace iff the configuration does not
keep intermediates, and returns both the workspace path and the per-run
output directory path; a failing run never deletes the workspace, whatever
the retain-intermediates setting. -/
theorem C8_workspace_cleanup (cfg : PipelineConfig) (w : PipelineWorld) :
    (∀ r st, SplatPipeline.run cfg w = (.ok r, st) →
      st.workspaceCreated = true ∧ st.outputDirCreated = true
        ∧ st.workspaceDeleted = !cfg.output.keep_intermediates
        ∧ r.workspace_dir = w.jobsDir ++ "/" ++ w.workspaceName
        ∧ r.output_dir = cfg.output.output_dir ++ "/" ++ w.workspaceName)
    ∧ (∀ e st, SplatPipeline.run cfg w = (.error e, st) →
        st.workspaceDeleted = false) := by
  constructor
  · intro r st h
    unfold SplatPipeline.run at h
    cases hval : cfg.validate w.fs with
    | error e1 => simp [hval] at h
    | ok u1 =>
      simp only [hval] at h
      cases hst : runStages cfg w with
      | error e2 => simp [hst] at h
      | ok u2 =>
        simp only [hst, Prod.mk.injEq] at h
        obtain ⟨hr, hstate⟩ := h
        cases hr
        subst hstate
        exact ⟨rfl, rfl, rfl, rfl, rfl⟩
  · intro e st h
    unfold SplatPipeline.run at h
    cases hval : cfg.validate w.fs with
    | error e1 =>
      simp only [hval, Prod.mk.injEq] at h
      obtain ⟨-, hstate⟩ := h
      subst hstate
      rfl
    | ok u1 =>
      simp only [hval] at h
      cases hst : runStages cfg w with
      | error e2 =>
        simp only [hst, Prod.mk.injEq] at h
        obtain ⟨-, hstate⟩ := h
        subst hstate
        rfl
      | ok u2 => simp [hst] at h

/-- Concrete job configuration for the C8 witness: image input, sampling
disabled, intermediates not kept. -/
def cfgC8 : PipelineConfig :=
  { input := ⟨InputType.images, "in"⟩,
    output := { output_dir := "out", keep_intermediates := false },
    frame_sampling := { enabled := false } }

/-- Concrete world for the C8 witness: everything succeeds. -/
def worldC8 : PipelineWorld :=
  { fs := ⟨fun _ => true, fun _ => false, fun _ => true⟩,
    workspaceName := "splatflow-20250101-000000",
    jobsDir := "jobs",
    ingest := ⟨false, [], 3⟩,
    procOf := fun _ => ⟨[], 0⟩,
    colmapTool := .ok ⟨"/usr/bin/colmap", ["/usr/bin/colmap"], .empty⟩,
    sharpTool := ⟨"/usr/bin/sharp-frames", ["/usr/bin/sharp-frames"], .empty⟩,
    lichtfeldTool := .ok ⟨"/usr/bin/LichtFeld-Studio", ["/usr/bin/LichtFeld-Studio"], .empty⟩,
    caps := fun _ => ∅,
    dirExistsAfter := fun _ => true,
    exportOk := true }

/-- Witness for C8: the concrete all-success run returns both paths and
deletes the workspace (keep_intermediates is false). -/
theorem C8_workspace_cleanup_witness :
    SplatPipeline.run cfgC8 worldC8
      = (.ok ⟨"jobs/splatflow-20250101-000000", "out/splatflow-20250101-000000"⟩,
         ⟨true, true, true⟩)
    ∧ ((true : Bool) = !cfgC8.output.keep_intermediates) := by
  have heq : SplatPipeline.run cfgC8 worldC8
      = (.ok ⟨"jobs/splatflow-20250101-000000", "out/splatflow-20250101-000000"⟩,
         ⟨true, true, true⟩) := by rfl
  exact ⟨heq, ((C8_workspace_cleanup cfgC8 worldC8).1 _ _ heq).2.2.1 ▸ rfl⟩

/-! ### C10: video input with sampling disabled passes validation, fails in ingest -/

/-- C10: a configuration with video input and frame sampling disabled passes
configuration validation (a disabled frame-sampling sub-configuration is
vacuously valid), and the run then fails during Ingest with the
ValidationError demanding frame sampling — after the workspace and the
per-run output directory have been created. -/
theorem C10_video_requires_sampling (cfg : PipelineConfig) (w : PipelineWorld)
    (hvt : cfg.input.type = InputType.video)
    (hfs : cfg.frame_sampling.enabled = false)
    (hin : cfg.input.validate w.fs = .ok ())
    (hout : cfg.output.validate w.fs = .ok ())
    (hcol : cfg.colmap.validate = .ok ())
    (hlf : cfg.lichtfeld.validate = .ok ()) :
    cfg.frame_sampling.validate = .ok ()
    ∧ cfg.validate w.fs = .ok ()
    ∧ SplatPipeline.run cfg w
        = (.error (.validationErr "Video input requires frame_sampling.enabled = True"),
           ⟨true, true, false⟩) := by
  have hfsv : cfg.frame_sampling.validate = .ok () := by
    unfold FrameSamplingConfig.validate
    simp [hfs]
  have hval : cfg.validate w.fs = .ok () := by
    unfold PipelineConfig.validate
    rw [hin, hout, hfsv, hcol, hlf]
  refine ⟨hfsv, hval, ?_⟩
  have hing : _ingest cfg (w.jobsDir ++ "/" ++ w.workspaceName) w.sharpTool w.ingest w.procOf
      = .error (.validationErr "Video input requires frame_sampling.enabled = True") := by
    unfold _ingest
    rw [hvt]
    simp [hfs]
  have hst : runStages cfg w
      = .error (.validationErr "Video input requires frame_sampling.enabled = True") := by
    unfold runStages
    simp only [hing]
  unfold SplatPipeline.run
  rw [hval, hst]

/-- Concrete job configuration for the C10 witness: video input with
sampling explicitly disabled. -/
def cfgC10 : PipelineConfig :=
  { input := ⟨InputType.video, "movie.mp4"⟩,
    output := { output_dir := "out" },
    frame_sampling := { enabled := false } }

/-- Concrete world for the C10 witness. -/
def worldC10 : PipelineWorld :=
  { fs := ⟨fun _ => true, fun _ => true, fun _ => true⟩,
    workspaceName := "splatflow-20250101-000000",
    jobsDir := "jobs",
    ingest := ⟨true, [], 0⟩,
    procOf := fun _ => ⟨[], 0⟩,
    colmapTool := .ok ⟨"/usr/bin/colmap", ["/usr/bin/colmap"], .empty⟩,
    sharpTool := ⟨"/usr/bin/sharp-frames", ["/usr/bin/sharp-frames"], .empty⟩,
    lichtfeldTool := .ok ⟨"/usr/bin/LichtFeld-Studio", ["/usr/bin/LichtFeld-Studio"], .empty⟩,
    caps := fun _ => ∅,
    dirExistsAfter := fun _ => true,
    exportOk := true }

/-- Witness for C10 at the concrete configuration. -/
theorem C10_video_requires_sampling_witness :
    cfgC10.validate worldC10.fs = .ok ()
    ∧ SplatPipeline.run cfgC10 worldC10
        = (.error (.validationErr "Video input requires frame_sampling.enabled = True"),
           ⟨true, true, false⟩) := by
  have h := C10_video_requires_sampling cfgC10 worldC10 rfl rfl rfl rfl rfl rfl
  exact ⟨h.2.1, h.2.2⟩

end SplatFlow
